import Mathlib

/-!
Shallow embedding of the football prediction engine of `soccer.py`.

Match records keep exactly the fields the engine reads
(`homeTeam.shortName`, `awayTeam.shortName`, `score.fullTime.home/away`);
a missing or non-integer value is modelled by `none`.  Python float
arithmetic (division of counters) is modelled over `ℚ`; a Python
exception is modelled by `Except.error` carrying the exception name or
message.
-/

/-- Full-time score of a match; `none` models a missing (`None`) or
non-`int` goal entry, which the code filters out with `isinstance` checks. -/
structure FullTime where
  home : Option Int
  away : Option Int
deriving DecidableEq, Repr

/-- One raw match record, restricted to the fields the engine reads. -/
structure MatchRec where
  homeTeam : Option String
  awayTeam : Option String
  fullTime : Option FullTime
deriving DecidableEq, Repr

/-- Module-level constant `MAX_SCORE = 100`. -/
def MAX_SCORE : ℚ := 100

/-- Module-level constant `WIN_VALUE = 2`. -/
def WIN_VALUE : Int := 2

/-- Module-level constant `DRAW_VALUE = 1`. -/
def DRAW_VALUE : Int := 1

/-- Module-level constant `LOSE_VALUE = -1`. -/
def LOSE_VALUE : Int := -1

/-- Module-level constant `WIN_WEIGHT = 2`. -/
def WIN_WEIGHT : Int := 2

/-- Module-level constant `DRAW_WEIGHT = 1`. -/
def DRAW_WEIGHT : Int := 1

/-- Module-level constant `LOSE_WEIGHT = 2`. -/
def LOSE_WEIGHT : Int := 2

/-- Outcome of one match from the target team's perspective
(the `result` string in `calculate_team_points`). -/
inductive MatchOutcome
  | Win
  | Draw
  | Lose
deriving DecidableEq, Repr

/-- Loop state of `calculate_team_points`: the counter fields of `record`
plus the loop variable `is_home_game`, which in Python leaks out of the
loop holding the value from the last processed (qualifying) match, and is
undefined (`none`) when the loop body never ran. -/
structure FormState where
  homeWin : Nat
  homeDraw : Nat
  homeLose : Nat
  homeTotal : Nat
  awayWin : Nat
  awayDraw : Nat
  awayLose : Nat
  awayTotal : Nat
  gameGoals : Int
  homeGoals : Int
  awayGoals : Int
  lastIsHome : Option Bool
deriving DecidableEq, Repr

/-- Initial `record` of `calculate_team_points` (all counters zero,
`is_home_game` not yet assigned). -/
def initFormState : FormState :=
  { homeWin := 0, homeDraw := 0, homeLose := 0, homeTotal := 0
    awayWin := 0, awayDraw := 0, awayLose := 0, awayTotal := 0
    gameGoals := 0, homeGoals := 0, awayGoals := 0, lastIsHome := none }

/-- One iteration of the `for match in matches` loop of
`calculate_team_points`: skip records without a full-time score, records
not involving the team, and records with non-integer goals; otherwise
classify Win/Draw/Lose from the team's perspective and update the
counters.  (`record['Score']` accumulation is commented out in the
source, so no score is tracked here.) -/
def formStep (team : String) (st : FormState) (m : MatchRec) : FormState :=
  match m.fullTime with
  | none => st
  | some ft =>
    if ¬(m.homeTeam = some team ∨ m.awayTeam = some team) then st
    else
      match ft.home, ft.away with
      | some hs, some aw =>
        let isHome : Bool := m.homeTeam == some team
        let result : MatchOutcome :=
          if hs = aw then .Draw
          else if isHome then (if hs > aw then .Win else .Lose)
          else (if aw > hs then .Win else .Lose)
        let st := { st with gameGoals := st.gameGoals + hs + aw }
        let st :=
          if isHome then
            { st with
              homeWin := st.homeWin + (if result = MatchOutcome.Win then 1 else 0)
              homeDraw := st.homeDraw + (if result = MatchOutcome.Draw then 1 else 0)
              homeLose := st.homeLose + (if result = MatchOutcome.Lose then 1 else 0)
              homeTotal := st.homeTotal + 1
              homeGoals := st.homeGoals + hs
              awayGoals := st.awayGoals + aw }
          else
            { st with
              awayWin := st.awayWin + (if result = MatchOutcome.Win then 1 else 0)
              awayDraw := st.awayDraw + (if result = MatchOutcome.Draw then 1 else 0)
              awayLose := st.awayLose + (if result = MatchOutcome.Lose then 1 else 0)
              awayTotal := st.awayTotal + 1
              homeGoals := st.homeGoals + aw
              awayGoals := st.awayGoals + hs }
        { st with lastIsHome := some isHome }
      | _, _ => st

/-- Result dictionary of `calculate_team_points` (the derived fields). -/
structure TeamRecord where
  homeWin : Nat
  homeDraw : Nat
  homeLose : Nat
  homeTotal : Nat
  awayWin : Nat
  awayDraw : Nat
  awayLose : Nat
  awayTotal : Nat
  gameGoals : Int
  homeGoals : Int
  awayGoals : Int
  homeWWeight : ℚ
  awayWWeight : ℚ
  homeWDWeight : ℚ
  awayWDWeight : ℚ
  score : Int
  averageGoals : ℚ
deriving DecidableEq, Repr

/-- Embedding of `calculate_team_points(matches, team_name)`.  After the
loop it computes the four ratios (guarded against a zero denominator) and
then, unguarded, `average_goals = (Home_Goals + Away_Goals) / total_games`
— which raises `ZeroDivisionError` when `total_games` is `0`.  The
subsequent `if is_home_game ...` chain overwrites that value using the
leaked loop variable `is_home_game` (a `NameError` if the loop never ran,
which is unreachable because the division by zero fires first). -/
def calculate_team_points (ms : List MatchRec) (team : String) :
    Except String TeamRecord :=
  let st := ms.foldl (formStep team) initFormState
  let totalGames := st.homeTotal + st.awayTotal
  let homeWW : ℚ := if 0 < st.homeTotal then (st.homeWin : ℚ) / (st.homeTotal : ℚ) else 0
  let awayWW : ℚ := if 0 < st.awayTotal then (st.awayWin : ℚ) / (st.awayTotal : ℚ) else 0
  let homeWDW : ℚ :=
    if 0 < st.homeTotal then ((st.homeWin : ℚ) + (st.homeDraw : ℚ)) / (st.homeTotal : ℚ) else 0
  let awayWDW : ℚ :=
    if 0 < st.awayTotal then ((st.awayWin : ℚ) + (st.awayDraw : ℚ)) / (st.awayTotal : ℚ) else 0
  if totalGames = 0 then .error "ZeroDivisionError"
  else
    match st.lastIsHome with
    | none => .error "NameError"
    | some isHome =>
      let avg : ℚ :=
        if isHome = true ∧ 0 < st.homeTotal then (st.homeGoals : ℚ) / (st.homeTotal : ℚ)
        else if isHome = false ∧ 0 < st.awayTotal then (st.awayGoals : ℚ) / (st.awayTotal : ℚ)
        else ((st.homeGoals : ℚ) + (st.awayGoals : ℚ)) / (totalGames : ℚ)
      .ok
        { homeWin := st.homeWin, homeDraw := st.homeDraw, homeLose := st.homeLose
          homeTotal := st.homeTotal
          awayWin := st.awayWin, awayDraw := st.awayDraw, awayLose := st.awayLose
          awayTotal := st.awayTotal
          gameGoals := st.gameGoals, homeGoals := st.homeGoals, awayGoals := st.awayGoals
          homeWWeight := homeWW, awayWWeight := awayWW
          homeWDWeight := homeWDW, awayWDWeight := awayWDW
          score := 0, averageGoals := avg }

/-- Decidable test for a match qualifying for the team's statistics:
the team appears on one side and both full-time goal entries are present
as integers. -/
def formQualifies (team : String) (m : MatchRec) : Bool :=
  (m.homeTeam == some team || m.awayTeam == some team) &&
    (match m.fullTime with
     | some ft => ft.home.isSome && ft.away.isSome
     | none => false)


/-- Filter of `get_confrontation_matches(matches, team_a, team_b)`:
matches whose home/away pair is exactly `{a, b}` in either order.
The Python function returns `None` on an empty result; the caller only
tests emptiness, so the list itself is the embedding. -/
def get_confrontation_matches (ms : List MatchRec) (a b : String) : List MatchRec :=
  ms.filter (fun m =>
    (m.homeTeam == some a && m.awayTeam == some b) ||
    (m.homeTeam == some b && m.awayTeam == some a))

/-- Loop state of `get_confrontation_historical`. -/
structure H2HState where
  aScore : Int
  aWin : Nat
  bScore : Int
  bWin : Nat
  total : Nat
deriving DecidableEq, Repr

/-- One iteration of the scoring loop of `get_confrontation_historical`:
skip records without two integer goals; otherwise count the match and
award points — draw: `DRAW_VALUE * DRAW_WEIGHT` to both; home win:
`WIN_VALUE` to the home winner and `LOSE_VALUE` to the away loser;
away win: `WIN_VALUE * WIN_WEIGHT` to the away winner and
`LOSE_VALUE * LOSE_WEIGHT` to the home loser. -/
def h2hStep (a : String) (st : H2HState) (m : MatchRec) : H2HState :=
  match m.fullTime with
  | none => st
  | some ft =>
    match ft.home, ft.away with
    | some hs, some aw =>
      let st := { st with total := st.total + 1 }
      if hs = aw then
        { st with aScore := st.aScore + DRAW_VALUE * DRAW_WEIGHT
                  bScore := st.bScore + DRAW_VALUE * DRAW_WEIGHT }
      else if hs > aw then
        if m.homeTeam == some a then
          { st with aScore := st.aScore + WIN_VALUE
                    bScore := st.bScore + LOSE_VALUE
                    aWin := st.aWin + 1 }
        else
          { st with bScore := st.bScore + WIN_VALUE
                    aScore := st.aScore + LOSE_VALUE
                    bWin := st.bWin + 1 }
      else
        if m.awayTeam == some a then
          { st with aScore := st.aScore + WIN_VALUE * WIN_WEIGHT
                    bScore := st.bScore + LOSE_VALUE * LOSE_WEIGHT
                    aWin := st.aWin + 1 }
        else
          { st with bScore := st.bScore + WIN_VALUE * WIN_WEIGHT
                    aScore := st.aScore + LOSE_VALUE * LOSE_WEIGHT
                    bWin := st.bWin + 1 }
    | _, _ => st

/-- Result dictionary of `get_confrontation_historical`. -/
structure H2HResult where
  teamAScore : Int
  teamAWeight : ℚ
  teamBScore : Int
  teamBWeight : ℚ
  totalMatches : Nat
deriving DecidableEq, Repr

/-- Embedding of `get_confrontation_historical(h2h_mat, team_a, team_b)`:
filter to direct fixtures, return the neutral result on an empty filter,
otherwise accumulate points and wins and derive the win-rate weights
(initialized to `1` and overwritten only when `total_matches > 0`). -/
def get_confrontation_historical (ms : List MatchRec) (a b : String) : H2HResult :=
  let h2h := get_confrontation_matches ms a b
  if h2h.isEmpty then
    { teamAScore := 0, teamAWeight := 1, teamBScore := 0, teamBWeight := 1, totalMatches := 0 }
  else
    let st := h2h.foldl (h2hStep a) { aScore := 0, aWin := 0, bScore := 0, bWin := 0, total := 0 }
    let aW : ℚ := if 0 < st.total then (st.aWin : ℚ) / (st.total : ℚ) else 1
    let bW : ℚ := if 0 < st.total then (st.bWin : ℚ) / (st.total : ℚ) else 1
    { teamAScore := st.aScore, teamAWeight := aW
      teamBScore := st.bScore, teamBWeight := bW, totalMatches := st.total }

/-- Loop counters of `get_confrontation_indirect`. -/
structure IndState where
  aWin : Nat
  aWinHome : Nat
  bWin : Nat
  bWinAway : Nat
  total : Nat
  totalHome : Nat
  totalAway : Nat
deriving DecidableEq, Repr

/-- Initial counters of `get_confrontation_indirect`. -/
def initIndState : IndState :=
  { aWin := 0, aWinHome := 0, bWin := 0, bWinAway := 0
    total := 0, totalHome := 0, totalAway := 0 }

/-- Inner-loop admission test of `get_confrontation_indirect`: the
candidate linking match must not involve team `a`, must have a full-time
score with two integer goals, and must involve both team `b` and the
common opponent `searchIndirect` (an `Option` because a missing
`shortName` propagates, as in the Python comparisons). -/
def indirectInner (a b : String) (searchIndirect : Option String) (m2 : MatchRec) : Bool :=
  (!(m2.homeTeam == some a || m2.awayTeam == some a)) &&
    (match m2.fullTime with
     | none => false
     | some ft2 =>
       (m2.homeTeam == some b || m2.awayTeam == some b) &&
       (m2.homeTeam == searchIndirect || m2.awayTeam == searchIndirect) &&
       ft2.home.isSome && ft2.away.isSome)

/-- One iteration of the outer loop of `get_confrontation_indirect`:
for a qualifying match of team `a` (not against `b`), take the first
match of the full list that indirectly links `b` through `a`'s opponent
(the inner loop `break`s after the first hit) and update the win and
total counters for both sides. -/
def indirectStep (ms : List MatchRec) (a b : String) (st : IndState) (m : MatchRec) :
    IndState :=
  match m.fullTime with
  | none => st
  | some ft =>
    if ¬(m.homeTeam = some a ∨ m.awayTeam = some a) then st
    else
      match ft.home, ft.away with
      | some hs, some aw =>
        let searchIndirect : Option String :=
          if m.homeTeam == some a then m.awayTeam else m.homeTeam
        if searchIndirect == some b then st
        else
          match ms.find? (indirectInner a b searchIndirect) with
          | none => st
          | some m2 =>
            match m2.fullTime with
            | none => st
            | some ft2 =>
              match ft2.home, ft2.away with
              | some hs2, some aw2 =>
                let st :=
                  if m.homeTeam == some a then
                    { st with totalHome := st.totalHome + 1
                              aWin := st.aWin + (if hs > aw then 1 else 0)
                              aWinHome := st.aWinHome + (if hs > aw then 1 else 0) }
                  else
                    { st with aWin := st.aWin + (if aw > hs then 1 else 0) }
                let st :=
                  if m2.homeTeam == some b then
                    { st with bWin := st.bWin + (if hs2 > aw2 then 1 else 0) }
                  else
                    { st with totalAway := st.totalAway + 1
                              bWin := st.bWin + (if aw2 > hs2 then 1 else 0)
                              bWinAway := st.bWinAway + (if aw2 > hs2 then 1 else 0) }
                { st with total := st.total + 1 }
              | _, _ => st
      | _, _ => st

/-- Counter pass of `get_confrontation_indirect` over the full list. -/
def indirectCounters (ms : List MatchRec) (a b : String) : IndState :=
  ms.foldl (indirectStep ms a b) initIndState

/-- Embedding of `get_confrontation_indirect(matches, team_a, team_b)`.
After counting, the code computes `wa`, `wb` (overall win-rates,
defaulting to 1.0 on a zero denominator) and also `wa_home`, `wb_away`
(role-conditioned rates that it multiplies by `wa`/`wb`), but the
`return wa, wb` statement returns only the overall rates — the products
`wa_home`, `wb_away` are dead values.  With no links, or no wins on
either side, it returns the neutral `(1, 1)`. -/
def get_confrontation_indirect (ms : List MatchRec) (a b : String) : ℚ × ℚ :=
  let st := indirectCounters ms a b
  let wa : ℚ := if 0 < st.total then (st.aWin : ℚ) / (st.total : ℚ) else 1
  let wb : ℚ := if 0 < st.total then (st.bWin : ℚ) / (st.total : ℚ) else 1
  if st.total = 0 ∨ (st.aWin = 0 ∧ st.bWin = 0) then (1, 1) else (wa, wb)

/-- Indirect comparator return value as worded by the spec (claim C2):
for each side the product of the overall indirect win-rate and the
role-conditioned win-rate, every rate defaulting to 1 when its
denominator is 0.  This is the refinement target to compare with
`get_confrontation_indirect`, which discards the role-conditioned
factors. -/
def indirect_weights_spec (ms : List MatchRec) (a b : String) : ℚ × ℚ :=
  let st := indirectCounters ms a b
  let wa : ℚ := if 0 < st.total then (st.aWin : ℚ) / (st.total : ℚ) else 1
  let wb : ℚ := if 0 < st.total then (st.bWin : ℚ) / (st.total : ℚ) else 1
  let waHome : ℚ := if 0 < st.totalHome then (st.aWinHome : ℚ) / (st.totalHome : ℚ) else 1
  let wbAway : ℚ := if 0 < st.totalAway then (st.bWinAway : ℚ) / (st.totalAway : ℚ) else 1
  (wa * waHome, wb * wbAway)

/-- Composite scoring step of the orchestrator (`__main__` lines 619–655):
base scores cross-multiply each team's home and away win-rate weights
with `MAX_SCORE`, final scores multiply in the head-to-head weight and
the indirect weight, and the result category `tmp_res` is `1` (home win)
or `2` (away win) for a strictly greater final score, else `0` (draw). -/
def compositeStep (homeRec awayRec : TeamRecord) (h2h : H2HResult) (ind : ℚ × ℚ) :
    ℚ × ℚ × Nat :=
  let homeWScore := MAX_SCORE * homeRec.homeWWeight * homeRec.awayWWeight
  let awayWScore := MAX_SCORE * awayRec.awayWWeight * awayRec.homeWWeight
  let homeScore := h2h.teamAWeight * homeWScore * ind.1
  let awayScore := h2h.teamBWeight * awayWScore * ind.2
  let tmpRes : Nat :=
    if homeScore > awayScore then 1 else if awayScore > homeScore then 2 else 0
  (homeScore, awayScore, tmpRes)

/-- Composite scoring portion of the prediction pipeline for one
scheduled pairing, as run by `__main__`: form records for both teams,
head-to-head and indirect comparisons, then `compositeStep`. -/
def predictScores (ms : List MatchRec) (home away : String) :
    Except String (ℚ × ℚ × Nat) := do
  let homeRec ← calculate_team_points ms home
  let awayRec ← calculate_team_points ms away
  let h2h := get_confrontation_historical ms home away
  let ind := get_confrontation_indirect ms home away
  return compositeStep homeRec awayRec h2h ind

/-- Goal-total banding update of the display loop (`__main__`
lines 681–687): an `if/elif/elif` chain with no `else`, so an average
outside all three bands leaves the previous value of `av_goals` in
place. -/
def bandUpdate (st : String) (avg : ℚ) : String :=
  if 3.5 < avg ∧ avg ≤ 4.5 then " > 3.5"
  else if 2.5 < avg ∧ avg ≤ 3.5 then " > 2.5"
  else if 1.5 < avg ∧ avg ≤ 2.5 then " > 1.5"
  else st

/-- Banding labels attached to a run of predictions, threading the
`av_goals` state through `bandUpdate` from one prediction to the next. -/
def bandLabelsFrom (st : String) : List ℚ → List String
  | [] => []
  | avg :: rest =>
    let st2 := bandUpdate st avg
    st2 :: bandLabelsFrom st2 rest

/-- Labels produced for a sorted prediction list by the display loop:
`av_goals` is initialized once to `" < 1.5"` before the loop. -/
def bandLabels (avgs : List ℚ) : List String := bandLabelsFrom " < 1.5" avgs

/-- Odd-total draw correction at the top of `find_most_probable_score`:
for a required draw with an odd total, a total of 1 becomes 2 and any
other odd total has 1 subtracted. -/
def adjustTotal (result : Nat) (t : Int) : Int :=
  if result = 0 ∧ t % 2 ≠ 0 then (if t = 1 then 2 else t - 1) else t

/-- Search state of `find_most_probable_score`: the running maximum
probability (initialized to `-1.0`) and the best score pair (initialized
to the invalid `(-1, -1)`). -/
structure SearchState where
  maxProb : ℚ
  best : Int × Int
deriving DecidableEq, Repr

/-- One iteration of the score search of `find_most_probable_score`:
skip splits not matching the required result; otherwise compare the
product probability with the running maximum, tie-breaking equal
probabilities by the smaller absolute goal difference. -/
def scoreStep (ppmf : Int → ℚ → ℚ) (avgA avgB : ℚ) (result : Nat) (t : Int)
    (st : SearchState) (gA : Int) : SearchState :=
  let gB := t - gA
  if (result = 0 ∧ gA = gB) ∨ (result = 1 ∧ gA > gB) ∨ (result = 2 ∧ gB > gA) then
    let p := ppmf gA avgA * ppmf gB avgB
    if p > st.maxProb then { maxProb := p, best := (gA, gB) }
    else if p = st.maxProb then
      if |gA - gB| < |st.best.1 - st.best.2| then { st with best := (gA, gB) } else st
    else st
  else st

/-- Embedding of `find_most_probable_score(total_goals, a_avg, b_avg,
result)`.  `poisson_pmf(k, λ) = λ^k e^(−λ) / k!` is transcendental over
Python floats, so the probability function is abstracted as the
parameter `ppmf` (applied as `ppmf k λ`, and `0` for `k < 0` never
arises because `k` ranges over `0..total`); every theorem below holds
for an arbitrary `ppmf`, in particular for the Poisson one.  The two
`raise ValueError` sites become `Except.error` with the source
messages. -/
def find_most_probable_score (ppmf : Int → ℚ → ℚ) (total_goals : Int)
    (team_a_avg_goals team_b_avg_goals : ℚ) (result : Nat) :
    Except String (Int × Int) :=
  let t := adjustTotal result total_goals
  if t < 0 then .error "total_goals must be a non-negative integer."
  else if ¬(result = 0 ∨ result = 1 ∨ result = 2) then
    .error "result must be 0 (Draw), 1 (Team A Win), or 2 (Team B Win)."
  else
    let st := ((List.range (t.toNat + 1)).map (fun n => (n : Int))).foldl
      (scoreStep ppmf team_a_avg_goals team_b_avg_goals result t)
      { maxProb := -1, best := (-1, -1) }
    if st.best = (-1, -1) then
      if result = 0 ∧ t % 2 = 0 then .ok (t / 2, t / 2)
      else if result = 1 then .ok (t, 0)
      else if result = 2 then .ok (0, t)
      else .ok (0, 0)
    else .ok st.best

/-- Concrete four-match list for the indirect comparator: `A` loses at
home to `X`, then wins away at `Y`; `B` loses away at `X` and draws away
at `Y`.  It produces two indirect links with counters
`aWin = 1, aWinHome = 0, bWin = 0, bWinAway = 0, total = 2,
totalHome = 1, totalAway = 2`. -/
def indirectCexList : List MatchRec :=
  [ { homeTeam := some "A", awayTeam := some "X",
      fullTime := some { home := some 0, away := some 1 } },
    { homeTeam := some "X", awayTeam := some "B",
      fullTime := some { home := some 2, away := some 0 } },
    { homeTeam := some "Y", awayTeam := some "A",
      fullTime := some { home := some 0, away := some 1 } },
    { homeTeam := some "Y", awayTeam := some "B",
      fullTime := some { home := some 0, away := some 0 } } ]

/-- Concrete six-match list for the end-to-end composite scenario of
claim C3: team `A` has exactly 3 home wins out of 3 home games (and no
away games), team `B` has 0 away wins out of 3 away games, the two teams
share no fixture and no common opponent. -/
def scenarioC3 : List MatchRec :=
  [ { homeTeam := some "A", awayTeam := some "X1",
      fullTime := some { home := some 1, away := some 0 } },
    { homeTeam := some "A", awayTeam := some "X2",
      fullTime := some { home := some 1, away := some 0 } },
    { homeTeam := some "A", awayTeam := some "X3",
      fullTime := some { home := some 1, away := some 0 } },
    { homeTeam := some "Y1", awayTeam := some "B",
      fullTime := some { home := some 1, away := some 0 } },
    { homeTeam := some "Y2", awayTeam := some "B",
      fullTime := some { home := some 1, away := some 0 } },
    { homeTeam := some "Y3", awayTeam := some "B",
      fullTime := some { home := some 1, away := some 0 } } ]

lemma formStep_skip (team : String) (st : FormState) (m : MatchRec)
    (h : formQualifies team m = false) : formStep team st m = st := by
  unfold formQualifies at h
  unfold formStep
  cases hft : m.fullTime with
  | none => rfl
  | some ft =>
    rw [hft] at h
    simp only [Bool.and_eq_false_iff, Bool.or_eq_false_iff, beq_eq_false_iff_ne] at h
    rcases h with ⟨h1, h2⟩ | h
    · simp [h1, h2]
    · by_cases hteam : m.homeTeam = some team ∨ m.awayTeam = some team
      · cases hh : ft.home with
        | none => simp [hteam, hh]
        | some hsv =>
          cases ha : ft.away with
          | none => simp [hteam, hh, ha]
          | some hav =>
            rw [hh, ha] at h
            simp at h
      · simp [hteam]

lemma foldl_formStep_skip_all (team : String) (ms : List MatchRec)
    (h : ∀ m ∈ ms, formQualifies team m = false) :
    ms.foldl (formStep team) initFormState = initFormState := by
  induction ms with
  | nil => rfl
  | cons m rest ih =>
    have hm : formQualifies team m = false := h m (List.mem_cons_self m rest)
    have hrest : ∀ m' ∈ rest, formQualifies team m' = false :=
      fun m' hm' => h m' (List.mem_cons_of_mem m hm')
    simp only [List.foldl_cons, formStep_skip team initFormState m hm]
    exact ih hrest

/-- Claim C1 (code bug evidence): for a team with zero qualifying
FINISHED matches, `calculate_team_points` does not return zero ratios
and a zero average; it raises `ZeroDivisionError` at the unguarded
`average_goals = (Home_Goals + Away_Goals) / total_games`. -/
theorem calculate_team_points_no_data_raises (ms : List MatchRec) (team : String)
    (h : ∀ m ∈ ms, formQualifies team m = false) :
    calculate_team_points ms team = .error "ZeroDivisionError" := by
  unfold calculate_team_points
  rw [foldl_formStep_skip_all team ms h]
  rfl

/-- Witness for `calculate_team_points_no_data_raises` at the empty
match list and team `"A"`. -/
theorem calculate_team_points_no_data_raises_witness :
    calculate_team_points [] "A" = .error "ZeroDivisionError" :=
  calculate_team_points_no_data_raises [] "A" (by intro m hm; cases hm)

/-- Claim C8: if no match of the list is between `a` and `b` (in either
home/away order), `get_confrontation_historical` returns the neutral
result: both weights `1`, both scores `0`, zero total matches. -/
theorem get_confrontation_historical_no_h2h (ms : List MatchRec) (a b : String)
    (h : ∀ m ∈ ms, ¬((m.homeTeam = some a ∧ m.awayTeam = some b) ∨
                     (m.homeTeam = some b ∧ m.awayTeam = some a))) :
    get_confrontation_historical ms a b =
      { teamAScore := 0, teamAWeight := 1, teamBScore := 0, teamBWeight := 1,
        totalMatches := 0 } := by
  have hfilter : get_confrontation_matches ms a b = [] := by
    unfold get_confrontation_matches
    rw [List.filter_eq_nil_iff]
    intro m hm
    have hmm := h m hm
    simp only [Bool.or_eq_true, Bool.and_eq_true, beq_iff_eq]
    exact hmm
  unfold get_confrontation_historical
  rw [hfilter]
  rfl

/-- Witness for `get_confrontation_historical_no_h2h`: a one-match list
between two other teams. -/
theorem get_confrontation_historical_no_h2h_witness :
    get_confrontation_historical
      [{ homeTeam := some "X", awayTeam := some "Y",
         fullTime := some { home := some 2, away := some 0 } }] "A" "B" =
      { teamAScore := 0, teamAWeight := 1, teamBScore := 0, teamBWeight := 1,
        totalMatches := 0 } :=
  get_confrontation_historical_no_h2h _ "A" "B" (by
    intro m hm
    simp only [List.mem_singleton] at hm
    subst hm
    decide)

/-- Claim C9: on every qualifying head-to-head match the points awarded
are: draw — `+1` to both sides; home win — `+2` to the home winner and
`−1` to the away loser; away win — `+(2·2) = +4` to the away winner and
`+(−1·2) = −2` to the home loser. -/
theorem h2hStep_point_scheme (a b : String) (st : H2HState) (m : MatchRec)
    (hs aw : Int)
    (hft : m.fullTime = some { home := some hs, away := some aw })
    (hq : (m.homeTeam = some a ∧ m.awayTeam = some b) ∨
          (m.homeTeam = some b ∧ m.awayTeam = some a))
    (hab : a ≠ b) :
    (hs = aw → (h2hStep a st m).aScore = st.aScore + 1 ∧
               (h2hStep a st m).bScore = st.bScore + 1) ∧
    (hs > aw → (m.homeTeam = some a →
                  (h2hStep a st m).aScore = st.aScore + 2 ∧
                  (h2hStep a st m).bScore = st.bScore - 1) ∧
               (m.homeTeam = some b →
                  (h2hStep a st m).bScore = st.bScore + 2 ∧
                  (h2hStep a st m).aScore = st.aScore - 1)) ∧
    (aw > hs → (m.awayTeam = some a →
                  (h2hStep a st m).aScore = st.aScore + 4 ∧
                  (h2hStep a st m).bScore = st.bScore - 2) ∧
               (m.awayTeam = some b →
                  (h2hStep a st m).bScore = st.bScore + 4 ∧
                  (h2hStep a st m).aScore = st.aScore - 2)) := by
  refine ⟨?_, ?_, ?_⟩
  · intro hdraw
    unfold h2hStep
    rw [hft]
    simp [hdraw, DRAW_VALUE, DRAW_WEIGHT]
  · intro hwin
    have hne : ¬(hs = aw) := by omega
    constructor
    · intro hha
      unfold h2hStep
      rw [hft]
      simp [hne, hwin, hha, WIN_VALUE, LOSE_VALUE, Int.sub_eq_add_neg]
    · intro hhb
      have hfalse : (m.homeTeam == some a) = false := by
        rw [hhb]
        simp only [beq_eq_false_iff_ne, ne_eq, Option.some.injEq]
        exact fun hba => hab hba.symm
      unfold h2hStep
      rw [hft]
      simp [hne, hwin, hfalse, WIN_VALUE, LOSE_VALUE, LOSE_WEIGHT, Int.sub_eq_add_neg]
  · intro hwin
    have hne : ¬(hs = aw) := by omega
    have hngt : ¬(hs > aw) := by omega
    constructor
    · intro hta
      unfold h2hStep
      rw [hft]
      simp [hne, hngt, hta, WIN_VALUE, WIN_WEIGHT, LOSE_VALUE, LOSE_WEIGHT, Int.sub_eq_add_neg]
    · intro htb
      have hfalse : (m.awayTeam == some a) = false := by
        rw [htb]
        simp only [beq_eq_false_iff_ne, ne_eq, Option.some.injEq]
        exact fun hba => hab hba.symm
      unfold h2hStep
      rw [hft]
      simp [hne, hngt, hfalse, WIN_VALUE, WIN_WEIGHT, LOSE_VALUE, LOSE_WEIGHT, Int.sub_eq_add_neg]

/-- Witness for `h2hStep_point_scheme`: an away win of `B` at `A` awards
`+4` to `B` and `−2` to `A`. -/
theorem h2hStep_point_scheme_witness :
    (h2hStep "A" { aScore := 0, aWin := 0, bScore := 0, bWin := 0, total := 0 }
       { homeTeam := some "A", awayTeam := some "B",
         fullTime := some { home := some 0, away := some 1 } }).bScore = 0 + 4 ∧
    (h2hStep "A" { aScore := 0, aWin := 0, bScore := 0, bWin := 0, total := 0 }
       { homeTeam := some "A", awayTeam := some "B",
         fullTime := some { home := some 0, away := some 1 } }).aScore = 0 - 2 :=
  ((h2hStep_point_scheme "A" "B"
      { aScore := 0, aWin := 0, bScore := 0, bWin := 0, total := 0 }
      { homeTeam := some "A", awayTeam := some "B",
        fullTime := some { home := some 0, away := some 1 } }
      0 1 rfl (Or.inl ⟨rfl, rfl⟩) (by decide)).2.2 (by decide)).2 rfl


/-- Counterexample to claim C2 as stated: on `indirectCexList` (two
indirect links, one indirect win for side A) the code returns the
overall win-rates `(1/2, 0)`, while the claimed per-side products of
overall and role-conditioned rates are `(0, 0)`. -/
theorem get_confrontation_indirect_not_product :
    get_confrontation_indirect indirectCexList "A" "B" = (1/2, 0) ∧
    indirect_weights_spec indirectCexList "A" "B" = (0, 0) ∧
    get_confrontation_indirect indirectCexList "A" "B" ≠
      indirect_weights_spec indirectCexList "A" "B" := by
  have hc : indirectCounters indirectCexList "A" "B" =
      { aWin := 1, aWinHome := 0, bWin := 0, bWinAway := 0,
        total := 2, totalHome := 1, totalAway := 2 } := by decide
  have h1 : get_confrontation_indirect indirectCexList "A" "B" = (1/2, 0) := by
    unfold get_confrontation_indirect
    rw [hc]
    norm_num
  have h2 : indirect_weights_spec indirectCexList "A" "B" = (0, 0) := by
    unfold indirect_weights_spec
    rw [hc]
    norm_num
  refine ⟨h1, h2, ?_⟩
  rw [h1, h2]
  norm_num

/-- Claim C2 as amended: with at least one qualifying indirect link and
at least one indirect win on some side, `get_confrontation_indirect`
returns each side's overall indirect win-rate `wins / total`; the
role-conditioned factors are computed by the source but are not part of
the returned pair. -/
theorem get_confrontation_indirect_overall_rates (ms : List MatchRec) (a b : String)
    (h1 : (indirectCounters ms a b).total ≠ 0)
    (h2 : ¬((indirectCounters ms a b).aWin = 0 ∧ (indirectCounters ms a b).bWin = 0)) :
    get_confrontation_indirect ms a b =
      (((indirectCounters ms a b).aWin : ℚ) / ((indirectCounters ms a b).total : ℚ),
       ((indirectCounters ms a b).bWin : ℚ) / ((indirectCounters ms a b).total : ℚ)) := by
  unfold get_confrontation_indirect
  have hpos : 0 < (indirectCounters ms a b).total := Nat.pos_of_ne_zero h1
  have hcond : ¬((indirectCounters ms a b).total = 0 ∨
      ((indirectCounters ms a b).aWin = 0 ∧ (indirectCounters ms a b).bWin = 0)) := by
    rintro (hz | hw)
    · exact h1 hz
    · exact h2 hw
  simp only [hpos, if_true, hcond, if_false]

/-- Witness for `get_confrontation_indirect_overall_rates` on
`indirectCexList`. -/
theorem get_confrontation_indirect_overall_rates_witness :
    (indirectCounters indirectCexList "A" "B").total ≠ 0 ∧
    get_confrontation_indirect indirectCexList "A" "B" =
      (((indirectCounters indirectCexList "A" "B").aWin : ℚ) /
         ((indirectCounters indirectCexList "A" "B").total : ℚ),
       ((indirectCounters indirectCexList "A" "B").bWin : ℚ) /
         ((indirectCounters indirectCexList "A" "B").total : ℚ)) :=
  ⟨by decide,
   get_confrontation_indirect_overall_rates indirectCexList "A" "B"
     (by decide) (by decide)⟩

/-- Counterexample to claim C3 as stated: `scenarioC3` satisfies every
hypothesis of the claim (A: 3 home wins, 0 losses, in 3 home games; B: 0
away wins in 3 away games; no direct or indirect history between A and
B), yet the composite step yields `home_final = away_final = 0` and
result category `0` (draw), not a home win — A has no away games, so the
`Away_W_Weight` factor of `home_base` is `0`. -/
theorem predictScores_scenario_is_draw :
    predictScores scenarioC3 "A" "B" = .ok (0, 0, 0) ∧ ¬((0 : ℚ) > (0 : ℚ)) := by
  have hfa : scenarioC3.foldl (formStep "A") initFormState =
      { homeWin := 3, homeDraw := 0, homeLose := 0, homeTotal := 3
        awayWin := 0, awayDraw := 0, awayLose := 0, awayTotal := 0
        gameGoals := 3, homeGoals := 3, awayGoals := 0, lastIsHome := some true } := by
    decide
  have hfb : scenarioC3.foldl (formStep "B") initFormState =
      { homeWin := 0, homeDraw := 0, homeLose := 0, homeTotal := 0
        awayWin := 0, awayDraw := 0, awayLose := 3, awayTotal := 3
        gameGoals := 3, homeGoals := 0, awayGoals := 3, lastIsHome := some false } := by
    decide
  have hA : calculate_team_points scenarioC3 "A" = .ok
      { homeWin := 3, homeDraw := 0, homeLose := 0, homeTotal := 3
        awayWin := 0, awayDraw := 0, awayLose := 0, awayTotal := 0
        gameGoals := 3, homeGoals := 3, awayGoals := 0
        homeWWeight := 1, awayWWeight := 0, homeWDWeight := 1, awayWDWeight := 0
        score := 0, averageGoals := 1 } := by
    unfold calculate_team_points
    rw [hfa]
    norm_num
  have hB : calculate_team_points scenarioC3 "B" = .ok
      { homeWin := 0, homeDraw := 0, homeLose := 0, homeTotal := 0
        awayWin := 0, awayDraw := 0, awayLose := 3, awayTotal := 3
        gameGoals := 3, homeGoals := 0, awayGoals := 3
        homeWWeight := 0, awayWWeight := 0, homeWDWeight := 0, awayWDWeight := 0
        score := 0, averageGoals := 1 } := by
    unfold calculate_team_points
    rw [hfb]
    norm_num
  constructor
  · unfold predictScores
    rw [hA, hB]
    show Except.ok (compositeStep _ _ (get_confrontation_historical scenarioC3 "A" "B")
      (get_confrontation_indirect scenarioC3 "A" "B")) = _
    have hh : get_confrontation_historical scenarioC3 "A" "B" =
        { teamAScore := 0, teamAWeight := 1, teamBScore := 0, teamBWeight := 1,
          totalMatches := 0 } := rfl
    have hi : get_confrontation_indirect scenarioC3 "A" "B" = (1, 1) := rfl
    rw [hh, hi]
    unfold compositeStep
    norm_num [MAX_SCORE]
  · simp

/-- Claim C3 as amended: in the claimed scenario A has only home
matches, so its away win-rate weight is `0`, and B has no away wins, so
its away win-rate weight is `0`; with both those weights `0` the
composite step yields `home_final = away_final = 0` and result category
draw, regardless of the other weights. -/
theorem compositeStep_zero_cross_weights (homeRec awayRec : TeamRecord)
    (h2h : H2HResult) (ind : ℚ × ℚ)
    (hh : homeRec.awayWWeight = 0) (ha : awayRec.awayWWeight = 0) :
    compositeStep homeRec awayRec h2h ind = (0, 0, 0) := by
  unfold compositeStep
  rw [hh, ha]
  norm_num

/-- Witness for `compositeStep_zero_cross_weights` at the concrete
records computed from `scenarioC3`. -/
theorem compositeStep_zero_cross_weights_witness :
    compositeStep
      { homeWin := 3, homeDraw := 0, homeLose := 0, homeTotal := 3
        awayWin := 0, awayDraw := 0, awayLose := 0, awayTotal := 0
        gameGoals := 3, homeGoals := 3, awayGoals := 0
        homeWWeight := 1, awayWWeight := 0, homeWDWeight := 1, awayWDWeight := 0
        score := 0, averageGoals := 1 }
      { homeWin := 0, homeDraw := 0, homeLose := 0, homeTotal := 0
        awayWin := 0, awayDraw := 0, awayLose := 3, awayTotal := 3
        gameGoals := 3, homeGoals := 0, awayGoals := 3
        homeWWeight := 0, awayWWeight := 0, homeWDWeight := 0, awayWDWeight := 0
        score := 0, averageGoals := 1 }
      { teamAScore := 0, teamAWeight := 1, teamBScore := 0, teamBWeight := 1,
        totalMatches := 0 }
      (1, 1) = (0, 0, 0) :=
  compositeStep_zero_cross_weights _ _ _ _ rfl rfl

lemma category_of_scores (X Y : ℚ) :
    ((if X > Y then (1 : Nat) else if Y > X then 2 else 0) = 0 ↔ X = Y) ∧
    ((if X > Y then (1 : Nat) else if Y > X then 2 else 0) = 1 ↔ X > Y) ∧
    ((if X > Y then (1 : Nat) else if Y > X then 2 else 0) = 2 ↔ Y > X) := by
  rcases lt_trichotomy X Y with h | h | h
  · have h1 : ¬(X > Y) := not_lt.mpr (le_of_lt h)
    simp [h, h1, ne_of_lt h]
  · simp [h, lt_irrefl]
  · have h1 : ¬(Y > X) := not_lt.mpr (le_of_lt h)
    simp [h, h1, (ne_of_lt h).symm]

/-- Claim C5: the composite final score of each side equals
`MAX_SCORE × own-role win-rate weight × other-role win-rate weight ×
h2h weight × indirect weight`, and the result category is draw exactly
on equal final scores, otherwise the side with the strictly greater
final score. -/
theorem compositeStep_formula_and_category (homeRec awayRec : TeamRecord)
    (h2h : H2HResult) (ind : ℚ × ℚ) :
    (compositeStep homeRec awayRec h2h ind).1 =
      MAX_SCORE * homeRec.homeWWeight * homeRec.awayWWeight * h2h.teamAWeight * ind.1 ∧
    (compositeStep homeRec awayRec h2h ind).2.1 =
      MAX_SCORE * awayRec.awayWWeight * awayRec.homeWWeight * h2h.teamBWeight * ind.2 ∧
    ((compositeStep homeRec awayRec h2h ind).2.2 = 0 ↔
      (compositeStep homeRec awayRec h2h ind).1 =
        (compositeStep homeRec awayRec h2h ind).2.1) ∧
    ((compositeStep homeRec awayRec h2h ind).2.2 = 1 ↔
      (compositeStep homeRec awayRec h2h ind).1 >
        (compositeStep homeRec awayRec h2h ind).2.1) ∧
    ((compositeStep homeRec awayRec h2h ind).2.2 = 2 ↔
      (compositeStep homeRec awayRec h2h ind).2.1 >
        (compositeStep homeRec awayRec h2h ind).1) := by
  simp only [compositeStep]
  refine ⟨by ring, by ring, ?_, ?_, ?_⟩
  · exact (category_of_scores _ _).1
  · exact (category_of_scores _ _).2.1
  · exact (category_of_scores _ _).2.2

/-- Counterexample to claim C4 as stated: the banding label is not a
pure function of the prediction's own average total goals — an average
of `1` receives `" > 2.5"` when it follows an average of `3`, but the
claimed `" < 1.5"` when processed on its own. -/
theorem bandLabels_not_pure :
    bandLabels [3, 1] = [" > 2.5", " > 2.5"] ∧
    bandLabels [1] = [" < 1.5"] ∧
    (" > 2.5" : String) ≠ " < 1.5" := by
  refine ⟨?_, ?_, by decide⟩ <;> norm_num [bandLabels, bandLabelsFrom, bandUpdate]

/-- Claim C4 as amended: within the three bands the label is a pure
function of the average (`(3.5, 4.5] ↦ " > 3.5"`, `(2.5, 3.5] ↦ " > 2.5"`,
`(1.5, 2.5] ↦ " > 1.5"`), but for an average `≤ 1.5` or `> 4.5` the loop
keeps the previous prediction's label (initially `" < 1.5"`), so equal
averages can receive different labels. -/
theorem bandUpdate_bands_and_carry :
    (∀ st : String, ∀ avg : ℚ, 3.5 < avg → avg ≤ 4.5 → bandUpdate st avg = " > 3.5") ∧
    (∀ st : String, ∀ avg : ℚ, 2.5 < avg → avg ≤ 3.5 → bandUpdate st avg = " > 2.5") ∧
    (∀ st : String, ∀ avg : ℚ, 1.5 < avg → avg ≤ 2.5 → bandUpdate st avg = " > 1.5") ∧
    (∀ st : String, ∀ avg : ℚ, avg ≤ 1.5 ∨ 4.5 < avg → bandUpdate st avg = st) := by
  refine ⟨?_, ?_, ?_, ?_⟩
  · intro st avg h1 h2
    simp [bandUpdate, h1, h2]
  · intro st avg h1 h2
    have hn1 : ¬((3.5 : ℚ) < avg ∧ avg ≤ 4.5) := by rintro ⟨h3, _⟩; linarith
    simp [bandUpdate, hn1, h1, h2]
  · intro st avg h1 h2
    have hn1 : ¬((3.5 : ℚ) < avg ∧ avg ≤ 4.5) := by rintro ⟨h3, _⟩; linarith
    have hn2 : ¬((2.5 : ℚ) < avg ∧ avg ≤ 3.5) := by rintro ⟨h3, _⟩; linarith
    simp [bandUpdate, hn1, hn2, h1, h2]
  · intro st avg h
    have hn1 : ¬((3.5 : ℚ) < avg ∧ avg ≤ 4.5) := by
      rintro ⟨h3, h4⟩; rcases h with h | h <;> linarith
    have hn2 : ¬((2.5 : ℚ) < avg ∧ avg ≤ 3.5) := by
      rintro ⟨h3, h4⟩; rcases h with h | h <;> linarith
    have hn3 : ¬((1.5 : ℚ) < avg ∧ avg ≤ 2.5) := by
      rintro ⟨h3, h4⟩; rcases h with h | h <;> linarith
    simp [bandUpdate, hn1, hn2, hn3]

/-- Witness for `bandUpdate_bands_and_carry`: an in-band average is
labelled by its band, an out-of-band average keeps the carried label. -/
theorem bandUpdate_bands_and_carry_witness :
    bandUpdate " < 1.5" 4 = " > 3.5" ∧ bandUpdate " > 2.5" 1 = " > 2.5" :=
  ⟨bandUpdate_bands_and_carry.1 " < 1.5" 4 (by norm_num) (by norm_num),
   bandUpdate_bands_and_carry.2.2.2 " > 2.5" 1 (Or.inl (by norm_num))⟩

/-- Claim C6: with result draw and an odd total, the corrected total is
2 when the total was 1, otherwise total − 1 (3→2, 5→4, …); and for
`total_goals = 1` with a required draw, the returned split is exactly
`(1, 1)` for every probability model and averages. -/
theorem find_most_probable_score_draw_total_one :
    (∀ t : Int, t % 2 ≠ 0 → adjustTotal 0 t = if t = 1 then 2 else t - 1) ∧
    (∀ ppmf : Int → ℚ → ℚ, ∀ avgA avgB : ℚ,
      find_most_probable_score ppmf 1 avgA avgB 0 = .ok (1, 1)) := by
  constructor
  · intro t ht
    simp [adjustTotal, ht]
  · intro ppmf avgA avgB
    have hadj : adjustTotal 0 1 = 2 := by decide
    simp only [find_most_probable_score, hadj]
    have hrange : ((List.range ((2 : Int).toNat + 1)).map (fun n => (n : Int))) =
        [0, 1, 2] := rfl
    rw [hrange]
    simp only [List.foldl_cons, List.foldl_nil]
    have h0 : scoreStep ppmf avgA avgB 0 2 { maxProb := -1, best := (-1, -1) } 0 =
        { maxProb := -1, best := (-1, -1) } := by
      norm_num [scoreStep]
    have h2 : ∀ st : SearchState, scoreStep ppmf avgA avgB 0 2 st 2 = st := by
      intro st
      norm_num [scoreStep]
    rw [h0]
    rcases lt_trichotomy (ppmf 1 avgA * ppmf 1 avgB) (-1 : ℚ) with hp | hp | hp
    · have hngt : ¬((-1 : ℚ) < ppmf 1 avgA * ppmf 1 avgB) := not_lt.mpr (le_of_lt hp)
      have hne : ppmf 1 avgA * ppmf 1 avgB ≠ -1 := ne_of_lt hp
      have h1 : scoreStep ppmf avgA avgB 0 2 { maxProb := -1, best := (-1, -1) } 1 =
          { maxProb := -1, best := (-1, -1) } := by
        norm_num [scoreStep, hngt, hne]
      rw [h1, h2]
      norm_num
    · have hngt : ¬((-1 : ℚ) < ppmf 1 avgA * ppmf 1 avgB) := by
        rw [hp]
        exact lt_irrefl _
      have h1 : scoreStep ppmf avgA avgB 0 2 { maxProb := -1, best := (-1, -1) } 1 =
          { maxProb := -1, best := (-1, -1) } := by
        norm_num [scoreStep, hngt, hp]
      rw [h1, h2]
      norm_num
    · have h1 : scoreStep ppmf avgA avgB 0 2 { maxProb := -1, best := (-1, -1) } 1 =
          { maxProb := ppmf 1 avgA * ppmf 1 avgB, best := (1, 1) } := by
        norm_num [scoreStep, hp]
      rw [h1, h2]
      norm_num

/-- Witness for `find_most_probable_score_draw_total_one`: the odd-total
correction at 3 and the `(1, 1)` output at total 1 with a zero
probability model. -/
theorem find_most_probable_score_draw_total_one_witness :
    adjustTotal 0 3 = 2 ∧
    find_most_probable_score (fun k l => 0) 1 0 0 0 = .ok (1, 1) :=
  ⟨by simpa using find_most_probable_score_draw_total_one.1 3 (by decide),
   find_most_probable_score_draw_total_one.2 (fun k l => 0) 0 0⟩

/-- Claim C7: a negative `total_goals` always fails with the
invalid-argument `ValueError`, for every result category (draw, A-win,
B-win — and indeed any category) and every probability model: the
negativity check fires before any scoreline can be produced, and the
draw correction only moves a negative odd total further down. -/
theorem find_most_probable_score_negative_raises (ppmf : Int → ℚ → ℚ)
    (avgA avgB : ℚ) (t : Int) (result : Nat) (ht : t < 0) :
    find_most_probable_score ppmf t avgA avgB result =
      .error "total_goals must be a non-negative integer." := by
  have hadj : adjustTotal result t < 0 := by
    unfold adjustTotal
    split
    · split <;> omega
    · exact ht
  simp [find_most_probable_score, hadj]

/-- Witness for `find_most_probable_score_negative_raises` at
`total_goals = -1` with the draw category. -/
theorem find_most_probable_score_negative_raises_witness :
    find_most_probable_score (fun k l => 0) (-1) 0 0 0 =
      .error "total_goals must be a non-negative integer." :=
  find_most_probable_score_negative_raises (fun k l => 0) 0 0 (-1) 0 (by decide)

lemma scoreStep_draw_preserves (ppmf : Int → ℚ → ℚ) (avgA avgB : ℚ) (t : Int)
    (st : SearchState) (gA : Int) (h : st.best.1 = st.best.2) :
    ((scoreStep ppmf avgA avgB 0 t st gA).best).1 =
      ((scoreStep ppmf avgA avgB 0 t st gA).best).2 := by
  simp only [scoreStep]
  split
  case isTrue hc =>
    have hg : gA = t - gA := by
      rcases hc with ⟨_, hg⟩ | ⟨h1, _⟩ | ⟨h1, _⟩
      · exact hg
      · exact absurd h1 (by decide)
      · exact absurd h1 (by decide)
    split
    · simpa using hg
    · split
      · split
        · simpa using hg
        · exact h
      · exact h
  case isFalse => exact h

lemma foldl_scoreStep_draw (ppmf : Int → ℚ → ℚ) (avgA avgB : ℚ) (t : Int)
    (l : List Int) (st : SearchState) (h : st.best.1 = st.best.2) :
    ((l.foldl (scoreStep ppmf avgA avgB 0 t) st).best).1 =
      ((l.foldl (scoreStep ppmf avgA avgB 0 t) st).best).2 := by
  induction l generalizing st with
  | nil => exact h
  | cons x xs ih =>
    exact ih (scoreStep ppmf avgA avgB 0 t st x)
      (scoreStep_draw_preserves ppmf avgA avgB t st x h)

/-- Claim C10: a required draw with a non-negative total always returns
an equal split `(g, g)`, for every probability model — every candidate
the search can select satisfies the draw predicate, the search state's
invalid initializer `(-1, -1)` is itself balanced, and every fallback
reachable with result 0 is balanced. -/
theorem find_most_probable_score_draw_is_balanced (ppmf : Int → ℚ → ℚ)
    (avgA avgB : ℚ) (t : Int) (ht : 0 ≤ t) :
    ∃ g : Int, find_most_probable_score ppmf t avgA avgB 0 = .ok (g, g) := by
  have hadj : ¬(adjustTotal 0 t < 0) := by
    unfold adjustTotal
    split
    · split <;> omega
    · omega
  have hpar : adjustTotal 0 t % 2 = 0 := by
    unfold adjustTotal
    split
    · split <;> omega
    · rename_i hcond
      simp only [true_and, not_not] at hcond
      omega
  have heq := foldl_scoreStep_draw ppmf avgA avgB (adjustTotal 0 t)
    ((List.range ((adjustTotal 0 t).toNat + 1)).map (fun n => (n : Int)))
    { maxProb := -1, best := (-1, -1) } rfl
  simp only [find_most_probable_score]
  rw [if_neg hadj]
  rw [if_neg (show ¬¬(True ∨ (0 : Nat) = 1 ∨ (0 : Nat) = 2) by norm_num)]
  set stf := ((List.range ((adjustTotal 0 t).toNat + 1)).map (fun n => (n : Int))).foldl
      (scoreStep ppmf avgA avgB 0 (adjustTotal 0 t))
      { maxProb := -1, best := (-1, -1) } with hstf
  by_cases hb : stf.best = (-1, -1)
  · rw [if_pos hb]
    rw [if_pos (show True ∧ adjustTotal 0 t % 2 = 0 from ⟨trivial, hpar⟩)]
    exact ⟨adjustTotal 0 t / 2, rfl⟩
  · rw [if_neg hb]
    exact ⟨stf.best.1, congrArg Except.ok (Prod.ext rfl heq.symm)⟩

/-- Witness for `find_most_probable_score_draw_is_balanced` at total 4
with a zero probability model. -/
theorem find_most_probable_score_draw_is_balanced_witness :
    (0 : Int) ≤ 4 ∧
    ∃ g : Int, find_most_probable_score (fun k l => 0) 4 0 0 0 = .ok (g, g) :=
  ⟨by decide, find_most_probable_score_draw_is_balanced (fun k l => 0) 0 0 4 (by decide)⟩
